import Mathlib

/-!
Shallow embedding of the SDR demo TUI (src/src/tui.rs) over exact rationals.
Floating-point values are modelled as rationals; trigonometric functions and
the f32 pi constant are abstracted into a `Trig` record; the global random
source (successive outputs of the random float generator, each in [0,1)) is
an explicit stream of rationals.
-/

namespace RfRust

/-- The subset of key codes that the key handler in tui.rs distinguishes;
`other` stands for every key matched by the catch-all arm. -/
inductive KeyCode where
  | charQ
  | esc
  | tab
  | right
  | left
  | charC
  | charS
  | up
  | down
  | other
deriving DecidableEq, Repr

/-- Abstract trigonometric environment: the f32 pi constant and the cos/sin
functions used to turn (magnitude, phase) into IQ components. -/
structure Trig where
  pi : ℚ
  cos : ℚ → ℚ
  sin : ℚ → ℚ

/-- Application state, mirroring `pub struct App` in tui.rs field by field.
IQ samples (Complex32) are pairs (re, im). -/
structure App where
  should_quit : Bool
  current_tab : ℕ
  frequency : ℚ
  sample_rate : ℚ
  gain : ℚ
  is_streaming : Bool
  status_message : String
  spectrum_data : List ℚ
  sample_buffer : List (ℚ × ℚ)
deriving DecidableEq, Repr

/-- `App::new`: initial state. frequency 890e6, sample_rate 1e6, gain 20.0,
tab 0, not streaming, 512 zero spectrum bins, empty sample buffer. -/
def App.new : App where
  should_quit := false
  current_tab := 0
  frequency := 890000000
  sample_rate := 1000000
  gain := 20
  is_streaming := false
  status_message := "DEMO MODE - No USRP hardware detected"
  spectrum_data := List.replicate 512 0
  sample_buffer := []

/-- One iteration of the loop body of `App::mock_stream_samples`: iteration k
consumes two random floats (phase at index 2k, magnitude at index 2k+1),
phase = rand * pi * 2, magnitude = 0.5 + rand * 0.5, and yields
(magnitude * cos phase, magnitude * sin phase). -/
def mockSample (T : Trig) (rnd : ℕ → ℚ) (k : ℕ) : ℚ × ℚ :=
  let phase := rnd (2 * k) * T.pi * 2
  let magnitude := 1 / 2 + rnd (2 * k + 1) * (1 / 2)
  (magnitude * T.cos phase, magnitude * T.sin phase)

/-- `App::mock_stream_samples`: clears the sample buffer and pushes 100
freshly generated IQ samples. -/
def mock_stream_samples (T : Trig) (rnd : ℕ → ℚ) (app : App) : App :=
  { app with sample_buffer := (List.range 100).map (mockSample T rnd) }

/-- `App::start_streaming`: set the streaming flag, set the status message,
then generate the one-shot batch of mock samples. -/
def start_streaming (T : Trig) (rnd : ℕ → ℚ) (app : App) : App :=
  mock_stream_samples T rnd
    { app with
      is_streaming := true
      status_message := "Mock streaming started (demo mode)" }

/-- `App::stop_streaming`: clear the streaming flag and set the status
message; nothing else is touched. -/
def stop_streaming (app : App) : App :=
  { app with
    is_streaming := false
    status_message := "Streaming stopped" }

/-- `App::adjust_parameter`: delta is +1 or -1; the parameter selected by
`current_tab` is stepped and clamped via `.max(lo).min(hi)`:
frequency step 1e6 clamped to [1e6, 6e9], gain step 1.0 clamped to [0, 60],
sample_rate step 0.1e6 clamped to [0.1e6, 10e6]; any other tab value hits
the catch-all arm and changes nothing. -/
def adjust_parameter (increase : Bool) (app : App) : App :=
  let delta : ℚ := if increase then 1 else -1
  match app.current_tab with
  | 0 => { app with
      frequency := min (max (app.frequency + delta * 1000000) 1000000) 6000000000 }
  | 1 => { app with
      gain := min (max (app.gain + delta * 1) 0) 60 }
  | 2 => { app with
      sample_rate := min (max (app.sample_rate + delta * 100000) 100000) 10000000 }
  | _ => app

/-- `App::on_key`: the single key-event dispatch. -/
def on_key (T : Trig) (rnd : ℕ → ℚ) (key : KeyCode) (app : App) : App :=
  match key with
  | .charQ => { app with should_quit := true }
  | .esc => { app with should_quit := true }
  | .tab => { app with current_tab := (app.current_tab + 1) % 3 }
  | .right => { app with current_tab := (app.current_tab + 1) % 3 }
  | .left => { app with
      current_tab := if app.current_tab = 0 then 2 else app.current_tab - 1 }
  | .charC => { app with status_message := "MOCK USRP connected (demo mode)" }
  | .charS =>
      if app.is_streaming then stop_streaming app else start_streaming T rnd app
  | .up => adjust_parameter true app
  | .down => adjust_parameter false app
  | .other => app

/-- One spectrum bin of `simulate_streaming_data`: at bin index i out of n,
normalized position freq = i / n, center = frequency / 1e9, three indicator
components (0.7 within 0.05 of center, 0.5 within 0.03 of center + 0.1,
0.3 within 0.02 of 0.8), plus the supplied noise term, clamped via
`.max(0.0).min(1.0)`. -/
def spectrumBin (frequency : ℚ) (n : ℕ) (noise : ℚ) (i : ℕ) : ℚ :=
  let freq : ℚ := (i : ℚ) / (n : ℚ)
  let center := frequency / 1000000000
  let signal1 : ℚ := if |freq - center| < 1 / 20 then 7 / 10 else 0
  let signal2 : ℚ := if |freq - (center + 1 / 10)| < 3 / 100 then 1 / 2 else 0
  let signal3 : ℚ := if |freq - 4 / 5| < 1 / 50 then 3 / 10 else 0
  min (max (signal1 + signal2 + signal3 + noise) 0) 1

/-- One per-tick IQ sample of `simulate_streaming_data`: iteration j consumes
three random floats starting at index off + 3j (phase_noise = rand * 0.1,
amplitude_noise = rand * 0.2, phase = rand * pi * 2 + phase_noise),
base_amplitude = 0.8 + amplitude_noise, and yields
(base_amplitude * cos phase, base_amplitude * sin phase). -/
def tickSample (T : Trig) (rnd : ℕ → ℚ) (off j : ℕ) : ℚ × ℚ :=
  let phase_noise := rnd (off + 3 * j) * (1 / 10)
  let amplitude_noise := rnd (off + 3 * j + 1) * (1 / 5)
  let base_amplitude := 4 / 5 + amplitude_noise
  let phase := rnd (off + 3 * j + 2) * T.pi * 2 + phase_noise
  (base_amplitude * T.cos phase, base_amplitude * T.sin phase)

/-- `simulate_streaming_data`: early-returns when not streaming; otherwise
rewrites every spectrum bin (bin i consumes the random float at index i,
noise = (rand - 0.5) * 0.05) and replaces the sample buffer wholesale with
20 fresh IQ samples. -/
def simulate_streaming_data (T : Trig) (rnd : ℕ → ℚ) (app : App) : App :=
  if app.is_streaming = false then app
  else
    let n := app.spectrum_data.length
    { app with
      spectrum_data :=
        (List.range n).map (fun i => spectrumBin app.frequency n ((rnd i - 1 / 2) * (1 / 20)) i)
      sample_buffer := (List.range 20).map (tickSample T rnd n) }

/-- A concrete trigonometric environment used to instantiate witnesses. -/
def cTrig : Trig where
  pi := 3
  cos := fun _ => 1
  sin := fun _ => 0

/-- A concrete random stream (constantly 0, a legal output in [0,1)) used to
instantiate witnesses. -/
def cRnd : ℕ → ℚ := fun _ => 0

/-- A concrete state that is currently streaming, for instantiating the
stop-streaming and per-tick claims. -/
def streamingApp : App := { App.new with is_streaming := true }

/-- Per-key field footprint of the key handler: which fields of the state
the key may write, with every other field left unchanged. The quit keys
touch only the quit flag, the navigation keys only the tab index, the
connect key only the status text, the streaming toggle only the streaming
flag, status text, and sample buffer, and the arrow keys only the parameter
field selected by the current tab (and nothing at all when the tab index is
outside {0,1,2}); unmatched keys change nothing. -/
def key_frame (key : KeyCode) (a b : App) : Prop :=
  match key with
  | .charQ | .esc =>
      b.current_tab = a.current_tab ∧ b.frequency = a.frequency ∧
      b.sample_rate = a.sample_rate ∧ b.gain = a.gain ∧
      b.is_streaming = a.is_streaming ∧ b.status_message = a.status_message ∧
      b.spectrum_data = a.spectrum_data ∧ b.sample_buffer = a.sample_buffer
  | .tab | .right | .left =>
      b.should_quit = a.should_quit ∧ b.frequency = a.frequency ∧
      b.sample_rate = a.sample_rate ∧ b.gain = a.gain ∧
      b.is_streaming = a.is_streaming ∧ b.status_message = a.status_message ∧
      b.spectrum_data = a.spectrum_data ∧ b.sample_buffer = a.sample_buffer
  | .charC =>
      b.should_quit = a.should_quit ∧ b.current_tab = a.current_tab ∧
      b.frequency = a.frequency ∧ b.sample_rate = a.sample_rate ∧
      b.gain = a.gain ∧ b.is_streaming = a.is_streaming ∧
      b.spectrum_data = a.spectrum_data ∧ b.sample_buffer = a.sample_buffer
  | .charS =>
      b.should_quit = a.should_quit ∧ b.current_tab = a.current_tab ∧
      b.frequency = a.frequency ∧ b.sample_rate = a.sample_rate ∧
      b.gain = a.gain ∧ b.spectrum_data = a.spectrum_data
  | .up | .down =>
      b.should_quit = a.should_quit ∧ b.current_tab = a.current_tab ∧
      b.is_streaming = a.is_streaming ∧ b.status_message = a.status_message ∧
      b.spectrum_data = a.spectrum_data ∧ b.sample_buffer = a.sample_buffer ∧
      (a.current_tab = 0 → b.gain = a.gain ∧ b.sample_rate = a.sample_rate) ∧
      (a.current_tab = 1 → b.frequency = a.frequency ∧ b.sample_rate = a.sample_rate) ∧
      (a.current_tab = 2 → b.frequency = a.frequency ∧ b.gain = a.gain) ∧
      (2 < a.current_tab → b = a)
  | .other => b = a

theorem App_new_quit : App.new.should_quit = false := rfl

theorem App_new_tab : App.new.current_tab = 0 := rfl

theorem App_new_freq : App.new.frequency = 890000000 := rfl

theorem App_new_rate : App.new.sample_rate = 1000000 := rfl

theorem App_new_gain : App.new.gain = 20 := rfl

theorem App_new_streaming : App.new.is_streaming = false := rfl

theorem App_new_msg : App.new.status_message = "DEMO MODE - No USRP hardware detected" := rfl

theorem cRnd_range : ∀ k, 0 ≤ cRnd k ∧ cRnd k < 1 := by
  intro k
  constructor <;> norm_num [cRnd]

/-- The clamp pattern `.max(lo).min(hi)` lands in [lo, hi] whenever lo ≤ hi. -/
theorem clamp_mem (x lo hi : ℚ) (h : lo ≤ hi) :
    lo ≤ min (max x lo) hi ∧ min (max x lo) hi ≤ hi :=
  ⟨le_min (le_max_right x lo) h, min_le_right _ _⟩

/-- `adjust_parameter` never touches the non-parameter fields. -/
theorem adjust_preserves (inc : Bool) (a : App) :
    (adjust_parameter inc a).should_quit = a.should_quit ∧
    (adjust_parameter inc a).current_tab = a.current_tab ∧
    (adjust_parameter inc a).is_streaming = a.is_streaming ∧
    (adjust_parameter inc a).status_message = a.status_message ∧
    (adjust_parameter inc a).spectrum_data = a.spectrum_data ∧
    (adjust_parameter inc a).sample_buffer = a.sample_buffer := by
  cases inc <;> simp only [adjust_parameter] <;> split <;> simp

/-- On the frequency tab, `adjust_parameter` clamps frequency into
[1e6, 6e9] and leaves gain and sample_rate alone. -/
theorem adjust_tab0 (inc : Bool) (a : App) (h : a.current_tab = 0) :
    1000000 ≤ (adjust_parameter inc a).frequency ∧
    (adjust_parameter inc a).frequency ≤ 6000000000 ∧
    (adjust_parameter inc a).gain = a.gain ∧
    (adjust_parameter inc a).sample_rate = a.sample_rate := by
  cases inc <;> simp only [adjust_parameter, h] <;>
    exact ⟨le_min (le_max_right _ _) (by norm_num), min_le_right _ _, trivial, trivial⟩

/-- On the gain tab, `adjust_parameter` clamps gain into [0, 60] and leaves
frequency and sample_rate alone. -/
theorem adjust_tab1 (inc : Bool) (a : App) (h : a.current_tab = 1) :
    0 ≤ (adjust_parameter inc a).gain ∧
    (adjust_parameter inc a).gain ≤ 60 ∧
    (adjust_parameter inc a).frequency = a.frequency ∧
    (adjust_parameter inc a).sample_rate = a.sample_rate := by
  cases inc <;> simp only [adjust_parameter, h] <;>
    exact ⟨le_min (le_max_right _ _) (by norm_num), min_le_right _ _, trivial, trivial⟩

/-- On the sample-rate tab, `adjust_parameter` clamps sample_rate into
[1e5, 1e7] and leaves frequency and gain alone. -/
theorem adjust_tab2 (inc : Bool) (a : App) (h : a.current_tab = 2) :
    100000 ≤ (adjust_parameter inc a).sample_rate ∧
    (adjust_parameter inc a).sample_rate ≤ 10000000 ∧
    (adjust_parameter inc a).frequency = a.frequency ∧
    (adjust_parameter inc a).gain = a.gain := by
  cases inc <;> simp only [adjust_parameter, h] <;>
    exact ⟨le_min (le_max_right _ _) (by norm_num), min_le_right _ _, trivial, trivial⟩

/-- Claim C1: for every tab in {0,1,2}, every direction, and every starting
state whose parameters are within their documented bounds, one application
of adjust_parameter keeps all parameters within bounds and mutates only the
parameter field selected by the tab (every other field of the state,
including the two unselected parameters, is unchanged). -/
theorem claim_C1_adjust_bounds (inc : Bool) (app : App)
    (htab : app.current_tab < 3)
    (hf1 : 1000000 ≤ app.frequency) (hf2 : app.frequency ≤ 6000000000)
    (hg1 : 0 ≤ app.gain) (hg2 : app.gain ≤ 60)
    (hr1 : 100000 ≤ app.sample_rate) (hr2 : app.sample_rate ≤ 10000000) :
    (1000000 ≤ (adjust_parameter inc app).frequency ∧
      (adjust_parameter inc app).frequency ≤ 6000000000) ∧
    (0 ≤ (adjust_parameter inc app).gain ∧ (adjust_parameter inc app).gain ≤ 60) ∧
    (100000 ≤ (adjust_parameter inc app).sample_rate ∧
      (adjust_parameter inc app).sample_rate ≤ 10000000) ∧
    (adjust_parameter inc app).should_quit = app.should_quit ∧
    (adjust_parameter inc app).current_tab = app.current_tab ∧
    (adjust_parameter inc app).is_streaming = app.is_streaming ∧
    (adjust_parameter inc app).status_message = app.status_message ∧
    (adjust_parameter inc app).spectrum_data = app.spectrum_data ∧
    (adjust_parameter inc app).sample_buffer = app.sample_buffer ∧
    (app.current_tab = 0 → (adjust_parameter inc app).gain = app.gain ∧
      (adjust_parameter inc app).sample_rate = app.sample_rate) ∧
    (app.current_tab = 1 → (adjust_parameter inc app).frequency = app.frequency ∧
      (adjust_parameter inc app).sample_rate = app.sample_rate) ∧
    (app.current_tab = 2 → (adjust_parameter inc app).frequency = app.frequency ∧
      (adjust_parameter inc app).gain = app.gain) := by
  obtain ⟨pq, pt, pstr, pmsg, psp, psb⟩ := adjust_preserves inc app
  have h3 : app.current_tab = 0 ∨ app.current_tab = 1 ∨ app.current_tab = 2 := by omega
  rcases h3 with h | h | h
  · obtain ⟨b1, b2, e1, e2⟩ := adjust_tab0 inc app h
    refine ⟨⟨b1, b2⟩, ⟨e1 ▸ hg1, e1 ▸ hg2⟩, ⟨e2 ▸ hr1, e2 ▸ hr2⟩,
      pq, pt, pstr, pmsg, psp, psb, fun _ => ⟨e1, e2⟩, fun h1 => ?_, fun h1 => ?_⟩ <;>
      exact absurd (h.symm.trans h1) (by decide)
  · obtain ⟨b1, b2, e1, e2⟩ := adjust_tab1 inc app h
    refine ⟨⟨e1 ▸ hf1, e1 ▸ hf2⟩, ⟨b1, b2⟩, ⟨e2 ▸ hr1, e2 ▸ hr2⟩,
      pq, pt, pstr, pmsg, psp, psb, fun h1 => ?_, fun _ => ⟨e1, e2⟩, fun h1 => ?_⟩ <;>
      exact absurd (h.symm.trans h1) (by decide)
  · obtain ⟨b1, b2, e1, e2⟩ := adjust_tab2 inc app h
    refine ⟨⟨e1 ▸ hf1, e1 ▸ hf2⟩, ⟨e2 ▸ hg1, e2 ▸ hg2⟩, ⟨b1, b2⟩,
      pq, pt, pstr, pmsg, psp, psb, fun h1 => ?_, fun h1 => ?_, fun _ => ⟨e1, e2⟩⟩ <;>
      exact absurd (h.symm.trans h1) (by decide)

theorem claim_C1_witness :
    1000000 ≤ (adjust_parameter true App.new).frequency ∧
    (adjust_parameter true App.new).frequency ≤ 6000000000 :=
  (claim_C1_adjust_bounds true App.new (by decide)
    (by rw [App_new_freq]; norm_num) (by rw [App_new_freq]; norm_num)
    (by rw [App_new_gain]; norm_num) (by rw [App_new_gain]; norm_num)
    (by rw [App_new_rate]; norm_num) (by rw [App_new_rate]; norm_num)).1

/-- Claim C2: tab navigation is cyclic of order 3 in both directions: from
any tab in {0,1,2}, three advances (Tab key or Right arrow) return to the
original tab, an advance followed by a retreat (Left arrow) returns to the
original tab, retreat from tab 0 yields tab 2, and advance from tab 2
yields tab 0. -/
theorem claim_C2_tab_cycle (T : Trig) (rnd : ℕ → ℚ) (app : App)
    (htab : app.current_tab < 3) :
    (on_key T rnd .tab (on_key T rnd .tab (on_key T rnd .tab app))).current_tab
      = app.current_tab ∧
    (on_key T rnd .right (on_key T rnd .right (on_key T rnd .right app))).current_tab
      = app.current_tab ∧
    (on_key T rnd .left (on_key T rnd .tab app)).current_tab = app.current_tab ∧
    (on_key T rnd .left (on_key T rnd .right app)).current_tab = app.current_tab ∧
    (app.current_tab = 0 → (on_key T rnd .left app).current_tab = 2) ∧
    (app.current_tab = 2 → (on_key T rnd .tab app).current_tab = 0) ∧
    (app.current_tab = 2 → (on_key T rnd .right app).current_tab = 0) := by
  have h3 : app.current_tab = 0 ∨ app.current_tab = 1 ∨ app.current_tab = 2 := by omega
  rcases h3 with h | h | h <;> simp [on_key, h]

theorem claim_C2_witness :
    (on_key cTrig cRnd .tab (on_key cTrig cRnd .tab (on_key cTrig cRnd .tab App.new))).current_tab
      = App.new.current_tab :=
  (claim_C2_tab_cycle cTrig cRnd App.new (by decide)).1

/-- `adjust_parameter` leaves at least two of the three parameter fields
unchanged, whatever the tab. -/
theorem adjust_param_cases (inc : Bool) (a : App) :
    ((adjust_parameter inc a).gain = a.gain ∧
      (adjust_parameter inc a).sample_rate = a.sample_rate) ∨
    ((adjust_parameter inc a).frequency = a.frequency ∧
      (adjust_parameter inc a).sample_rate = a.sample_rate) ∨
    ((adjust_parameter inc a).frequency = a.frequency ∧
      (adjust_parameter inc a).gain = a.gain) := by
  cases inc <;> simp only [adjust_parameter] <;> split <;> simp

/-- Beyond tab 2, `adjust_parameter` hits the catch-all arm and is the
identity. -/
theorem adjust_tab_other (inc : Bool) (a : App) (h : 2 < a.current_tab) :
    adjust_parameter inc a = a := by
  cases inc <;> simp only [adjust_parameter] <;> split <;>
    first
    | rfl
    | (exfalso; omega)

/-- Claim C5: the toggle-streaming key, pressed while streaming, clears the
streaming flag, sets the status text to the fixed stopped message, and
leaves the spectrum frame, the sample batch, all three parameters, the tab
index and the quit flag unchanged. -/
theorem claim_C5_stop_frame (T : Trig) (rnd : ℕ → ℚ) (app : App)
    (hs : app.is_streaming = true) :
    (on_key T rnd .charS app).is_streaming = false ∧
    (on_key T rnd .charS app).status_message = "Streaming stopped" ∧
    (on_key T rnd .charS app).spectrum_data = app.spectrum_data ∧
    (on_key T rnd .charS app).sample_buffer = app.sample_buffer ∧
    (on_key T rnd .charS app).frequency = app.frequency ∧
    (on_key T rnd .charS app).gain = app.gain ∧
    (on_key T rnd .charS app).sample_rate = app.sample_rate ∧
    (on_key T rnd .charS app).current_tab = app.current_tab ∧
    (on_key T rnd .charS app).should_quit = app.should_quit := by
  simp [on_key, hs, stop_streaming]

theorem claim_C5_witness :
    (on_key cTrig cRnd .charS streamingApp).is_streaming = false :=
  (claim_C5_stop_frame cTrig cRnd streamingApp rfl).1

/-- Claim C8, counterexample: the claim says every key event mutates exactly
one state field; but the toggle-streaming key, pressed in the initial
(non-streaming) state, changes both the streaming flag and the status text
(and also replaces the sample buffer), so more than one field is mutated by
a single event. -/
theorem claim_C8_counterexample :
    (on_key cTrig cRnd .charS App.new).is_streaming ≠ App.new.is_streaming ∧
    (on_key cTrig cRnd .charS App.new).status_message ≠ App.new.status_message := by
  constructor
  · simp [on_key, App_new_streaming, start_streaming, mock_stream_samples]
  · simp [on_key, App_new_streaming, App_new_msg, start_streaming, mock_stream_samples]

/-- Claim C8, amended: every key event writes only the fields in its
footprint: quit keys only the quit flag, tab navigation only the tab index,
the connect key only the status text, the streaming toggle only the
streaming flag, status text and sample buffer, the arrow keys only the
parameter field selected by the current tab (nothing when the tab index is
outside {0,1,2}); every other field is unchanged, and unmatched keys change
nothing. -/
theorem claim_C8_amended_frame (T : Trig) (rnd : ℕ → ℚ) (key : KeyCode) (app : App) :
    key_frame key app (on_key T rnd key app) := by
  cases key
  case charQ => simp [key_frame, on_key]
  case esc => simp [key_frame, on_key]
  case tab => simp [key_frame, on_key]
  case right => simp [key_frame, on_key]
  case left => simp [key_frame, on_key]
  case charC => simp [key_frame, on_key]
  case charS =>
    cases hst : app.is_streaming <;>
      simp [key_frame, on_key, hst, stop_streaming, start_streaming, mock_stream_samples]
  case up =>
    obtain ⟨pq, pt, pstr, pmsg, psp, psb⟩ := adjust_preserves true app
    refine ⟨pq, pt, pstr, pmsg, psp, psb, ?_, ?_, ?_, ?_⟩
    · intro h0
      obtain ⟨_, _, e1, e2⟩ := adjust_tab0 true app h0
      exact ⟨e1, e2⟩
    · intro h1
      obtain ⟨_, _, e1, e2⟩ := adjust_tab1 true app h1
      exact ⟨e1, e2⟩
    · intro h2
      obtain ⟨_, _, e1, e2⟩ := adjust_tab2 true app h2
      exact ⟨e1, e2⟩
    · intro hgt
      exact adjust_tab_other true app hgt
  case down =>
    obtain ⟨pq, pt, pstr, pmsg, psp, psb⟩ := adjust_preserves false app
    refine ⟨pq, pt, pstr, pmsg, psp, psb, ?_, ?_, ?_, ?_⟩
    · intro h0
      obtain ⟨_, _, e1, e2⟩ := adjust_tab0 false app h0
      exact ⟨e1, e2⟩
    · intro h1
      obtain ⟨_, _, e1, e2⟩ := adjust_tab1 false app h1
      exact ⟨e1, e2⟩
    · intro h2
      obtain ⟨_, _, e1, e2⟩ := adjust_tab2 false app h2
      exact ⟨e1, e2⟩
    · intro hgt
      exact adjust_tab_other false app hgt
  case other => rfl

/-- Claim C9: the quit flag is monotone: once set, every further key event
(any key code) leaves it set, and a simulator tick never changes it. -/
theorem claim_C9_quit_monotone (T : Trig) (rnd : ℕ → ℚ) (key : KeyCode) (app : App)
    (h : app.should_quit = true) :
    (on_key T rnd key app).should_quit = true ∧
    (simulate_streaming_data T rnd app).should_quit = true := by
  constructor
  · cases key
    case charQ => simp [on_key]
    case esc => simp [on_key]
    case tab => exact h
    case right => exact h
    case left => exact h
    case charC => exact h
    case charS =>
      cases hst : app.is_streaming <;>
        simp [on_key, hst, stop_streaming, start_streaming, mock_stream_samples, h]
    case up => exact (adjust_preserves true app).1.trans h
    case down => exact (adjust_preserves false app).1.trans h
    case other => exact h
  · unfold simulate_streaming_data
    split
    · exact h
    · exact h

theorem claim_C9_witness :
    (on_key cTrig cRnd .charC { App.new with should_quit := true }).should_quit = true ∧
    (simulate_streaming_data cTrig cRnd { App.new with should_quit := true }).should_quit = true :=
  claim_C9_quit_monotone cTrig cRnd .charC { App.new with should_quit := true } rfl

/-- Claim C10: the tab index is 0 initially and stays in {0,1,2} under every
key event; under that invariant the catch-all arm of adjust_parameter is
unreachable: on each of the three legal tabs, adjusting rewrites exactly
the parameter field that tab selects. -/
theorem claim_C10_tab_invariant (T : Trig) (rnd : ℕ → ℚ) (key : KeyCode) (inc : Bool)
    (app : App) (htab : app.current_tab < 3) :
    App.new.current_tab = 0 ∧
    (on_key T rnd key app).current_tab < 3 ∧
    (app.current_tab = 0 → ∃ v, adjust_parameter inc app = { app with frequency := v }) ∧
    (app.current_tab = 1 → ∃ v, adjust_parameter inc app = { app with gain := v }) ∧
    (app.current_tab = 2 → ∃ v, adjust_parameter inc app = { app with sample_rate := v }) := by
  refine ⟨rfl, ?_, ?_, ?_, ?_⟩
  · cases key
    case charQ => exact htab
    case esc => exact htab
    case tab => simp only [on_key]; omega
    case right => simp only [on_key]; omega
    case left => simp only [on_key]; split <;> omega
    case charC => exact htab
    case charS =>
      cases hst : app.is_streaming <;>
        simpa [on_key, hst, stop_streaming, start_streaming, mock_stream_samples] using htab
    case up => exact lt_of_eq_of_lt (adjust_preserves true app).2.1 htab
    case down => exact lt_of_eq_of_lt (adjust_preserves false app).2.1 htab
    case other => exact htab
  · intro h0
    exact ⟨min (max (app.frequency + (if inc then 1 else -1) * 1000000) 1000000) 6000000000,
      by cases inc <;> simp [adjust_parameter, h0]⟩
  · intro h1
    exact ⟨min (max (app.gain + (if inc then 1 else -1) * 1) 0) 60,
      by cases inc <;> simp [adjust_parameter, h1]⟩
  · intro h2
    exact ⟨min (max (app.sample_rate + (if inc then 1 else -1) * 100000) 100000) 10000000,
      by cases inc <;> simp [adjust_parameter, h2]⟩

theorem claim_C10_witness : App.new.current_tab = 0 ∧ (on_key cTrig cRnd .tab App.new).current_tab < 3 :=
  ⟨(claim_C10_tab_invariant cTrig cRnd .tab true App.new (by decide)).1,
   (claim_C10_tab_invariant cTrig cRnd .tab true App.new (by decide)).2.1⟩

/-- Every spectrum bin is clamped into [0, 1], whatever the inputs. -/
theorem spectrumBin_bounds (f : ℚ) (n : ℕ) (ns : ℚ) (i : ℕ) :
    0 ≤ spectrumBin f n ns i ∧ spectrumBin f n ns i ≤ 1 := by
  unfold spectrumBin
  exact ⟨le_min (le_max_right _ _) (by norm_num), min_le_right _ _⟩

/-- Claim C3: while streaming, one tick rewrites all 512 spectrum bins; the
bin at index i equals the three-component signal formula of spectrumBin at
normalized position i/512 (components 0.7 within 0.05 of
center = frequency/1e9, 0.5 within 0.03 of center + 0.1, 0.3 within 0.02 of
0.8) plus a noise value in [-0.025, 0.025], clamped to [0, 1]; hence every
stored spectrum value lies in [0, 1]. -/
theorem claim_C3_spectrum (T : Trig) (rnd : ℕ → ℚ) (app : App)
    (hs : app.is_streaming = true)
    (hlen : app.spectrum_data.length = 512)
    (hrnd : ∀ k, 0 ≤ rnd k ∧ rnd k < 1) :
    (simulate_streaming_data T rnd app).spectrum_data.length = 512 ∧
    (∀ i, i < 512 →
      ∃ noise : ℚ, -(1 / 40) ≤ noise ∧ noise ≤ 1 / 40 ∧
        (simulate_streaming_data T rnd app).spectrum_data.getD i 0
          = spectrumBin app.frequency 512 noise i) ∧
    (∀ x ∈ (simulate_streaming_data T rnd app).spectrum_data, 0 ≤ x ∧ x ≤ 1) := by
  have hsim : (simulate_streaming_data T rnd app).spectrum_data
      = (List.range 512).map
          (fun i => spectrumBin app.frequency 512 ((rnd i - 1 / 2) * (1 / 20)) i) := by
    simp [simulate_streaming_data, hs, hlen]
  rw [hsim]
  refine ⟨by simp, ?_, ?_⟩
  · intro i hi
    refine ⟨(rnd i - 1 / 2) * (1 / 20), ?_, ?_, ?_⟩
    · have h1 := (hrnd i).1
      nlinarith
    · have h2 := (hrnd i).2
      nlinarith
    · simp [List.getD_eq_getElem?_getD, List.getElem?_map, List.getElem?_range, hi]
  · intro x hx
    rw [List.mem_map] at hx
    obtain ⟨k, _, rfl⟩ := hx
    exact spectrumBin_bounds _ _ _ _

theorem claim_C3_witness :
    (simulate_streaming_data cTrig cRnd streamingApp).spectrum_data.length = 512 :=
  (claim_C3_spectrum cTrig cRnd streamingApp rfl
    (by rw [show streamingApp.spectrum_data = List.replicate 512 0 from rfl,
      List.length_replicate])
    cRnd_range).1

/-- Claim C4: the toggle-streaming key, pressed while not streaming, sets
the streaming flag, sets the status text to the fixed started message, and
replaces the sample buffer with exactly 100 IQ samples, each of the form
(m * cos p, m * sin p) with magnitude m in [0.5, 1.0]. -/
theorem claim_C4_start (T : Trig) (rnd : ℕ → ℚ) (app : App)
    (hs : app.is_streaming = false)
    (hrnd : ∀ k, 0 ≤ rnd k ∧ rnd k < 1) :
    (on_key T rnd .charS app).is_streaming = true ∧
    (on_key T rnd .charS app).status_message = "Mock streaming started (demo mode)" ∧
    (on_key T rnd .charS app).sample_buffer.length = 100 ∧
    ∀ s ∈ (on_key T rnd .charS app).sample_buffer,
      ∃ m p : ℚ, s = (m * T.cos p, m * T.sin p) ∧ 1 / 2 ≤ m ∧ m ≤ 1 := by
  have hkey : on_key T rnd .charS app = start_streaming T rnd app := by
    simp [on_key, hs]
  rw [hkey]
  refine ⟨rfl, rfl, by simp [start_streaming, mock_stream_samples], ?_⟩
  intro s hmem
  have hb : (start_streaming T rnd app).sample_buffer
      = (List.range 100).map (mockSample T rnd) := rfl
  rw [hb, List.mem_map] at hmem
  obtain ⟨k, _, rfl⟩ := hmem
  refine ⟨1 / 2 + rnd (2 * k + 1) * (1 / 2), rnd (2 * k) * T.pi * 2, rfl, ?_, ?_⟩
  · have h1 := (hrnd (2 * k + 1)).1
    linarith
  · have h2 := (hrnd (2 * k + 1)).2
    linarith

theorem claim_C4_witness :
    (on_key cTrig cRnd .charS App.new).is_streaming = true ∧
    (on_key cTrig cRnd .charS App.new).sample_buffer.length = 100 :=
  ⟨(claim_C4_start cTrig cRnd App.new rfl cRnd_range).1,
   (claim_C4_start cTrig cRnd App.new rfl cRnd_range).2.2.1⟩

/-- Claim C6: while streaming, one tick replaces the sample buffer wholesale
(whatever its previous contents) with exactly 20 IQ samples, each of the
form (m * cos p, m * sin p) with amplitude m = 0.8 plus a uniform value in
[0, 0.2), so m lies in [0.8, 1.0). -/
theorem claim_C6_tick_samples (T : Trig) (rnd : ℕ → ℚ) (app : App)
    (hs : app.is_streaming = true)
    (hrnd : ∀ k, 0 ≤ rnd k ∧ rnd k < 1) :
    (simulate_streaming_data T rnd app).sample_buffer.length = 20 ∧
    ∀ s ∈ (simulate_streaming_data T rnd app).sample_buffer,
      ∃ m p : ℚ, s = (m * T.cos p, m * T.sin p) ∧ 4 / 5 ≤ m ∧ m < 1 := by
  have hsim : (simulate_streaming_data T rnd app).sample_buffer
      = (List.range 20).map (tickSample T rnd app.spectrum_data.length) := by
    simp [simulate_streaming_data, hs]
  rw [hsim]
  refine ⟨by simp, ?_⟩
  intro s hmem
  rw [List.mem_map] at hmem
  obtain ⟨j, _, rfl⟩ := hmem
  refine ⟨4 / 5 + rnd (app.spectrum_data.length + 3 * j + 1) * (1 / 5),
    rnd (app.spectrum_data.length + 3 * j + 2) * T.pi * 2
      + rnd (app.spectrum_data.length + 3 * j) * (1 / 10), rfl, ?_, ?_⟩
  · have h1 := (hrnd (app.spectrum_data.length + 3 * j + 1)).1
    linarith
  · have h2 := (hrnd (app.spectrum_data.length + 3 * j + 1)).2
    linarith

theorem claim_C6_witness :
    (simulate_streaming_data cTrig cRnd streamingApp).sample_buffer.length = 20 :=
  (claim_C6_tick_samples cTrig cRnd streamingApp rfl cRnd_range).1

/-- `on_key` with the down arrow never drives frequency below 1e6. -/
theorem down_freq_lb (T : Trig) (rnd : ℕ → ℚ) (a : App)
    (h : 1000000 ≤ a.frequency) :
    1000000 ≤ (on_key T rnd .down a).frequency := by
  show 1000000 ≤ (adjust_parameter false a).frequency
  simp only [adjust_parameter]
  split
  · exact le_min (le_max_right _ _) (by norm_num)
  · exact h
  · exact h
  · exact h

/-- Claim C7: from the initial state (frequency 890e6, gain 20, sample rate
1e6, Frequency tab), one increase yields 891e6; two further decreases yield
889e6; and no number of further decreases drives frequency below 1e6. -/
theorem claim_C7_scenario (T : Trig) (rnd : ℕ → ℚ) :
    (on_key T rnd .up App.new).frequency = 891000000 ∧
    (on_key T rnd .down (on_key T rnd .down (on_key T rnd .up App.new))).frequency
      = 889000000 ∧
    ∀ n : ℕ,
      1000000 ≤ ((on_key T rnd .down)^[n]
        (on_key T rnd .down (on_key T rnd .down (on_key T rnd .up App.new)))).frequency := by
  have h1 : on_key T rnd .up App.new = { App.new with frequency := 891000000 } := by
    simp only [on_key, adjust_parameter, App_new_tab]
    simp [App_new_freq]
    norm_num
  have h2 : on_key T rnd .down { App.new with frequency := 891000000 }
      = { App.new with frequency := 890000000 } := by
    simp only [on_key, adjust_parameter, App_new_tab]
    simp
    norm_num
  have h3 : on_key T rnd .down { App.new with frequency := 890000000 }
      = { App.new with frequency := 889000000 } := by
    simp only [on_key, adjust_parameter, App_new_tab]
    simp
    norm_num
  refine ⟨by rw [h1], by rw [h1, h2, h3], ?_⟩
  intro n
  induction n with
  | zero =>
      rw [Function.iterate_zero_apply, h1, h2, h3]
      norm_num
  | succ n ih =>
      rw [Function.iterate_succ_apply']
      exact down_freq_lb T rnd _ ih

end RfRust
